import Mathlib

/-!
# Verification of the CTA departures poll/parse/cache core (`src/app.py`)

This file is a shallow embedding of the poll → parse/normalize → cache →
serve pipeline of `app.py`:

* the rail prediction normalizer `_parse_eta` (with a model of
  `datetime.strptime(s, "%Y%m%d %H:%M:%S")`, the `America/Chicago`
  UTC-offset rule and `datetime.isoformat`),
* the bus prediction normalizer `_parse_bus_prd`,
* the per-cycle bodies of `poll_once` / `poll_bus_once` taken after the
  HTTP fetch (the fetched, already-decoded payload is the input; transport,
  HTTP-status and decode failures are an `Except.error` input),
* the loop bodies of `poll_forever` / `poll_bus_forever` as pure state
  transformers on the cache,
* the snapshot endpoints `get_departures` / `get_bus_departures`.

Conventions of the embedding:

* Python exceptions are `Except String`; the string is the model of
  `str(e)` (exception message texts of library calls are abridged, their
  exact wording is not load-bearing anywhere in `app.py`).
* Python `None`-able fields are `Option`; absent XML/JSON fields are `none`.
* Bus prediction objects are modelled with the field types documented in
  the source (`_parse_bus_prd`: "Expects JSON from v3 getpredictions with
  format=json"), i.e. string-valued prediction fields; the error envelope
  value is kept as raw JSON because the code inspects its shape.
* `list.sort(key=...)` (a stable sort by a total preorder on keys) is
  modelled by `List.insertionSort`, which is also stable, hence produces
  the identical output list.
* Character predicates (`str.isdigit`, `str.upper`, `str.lower`,
  `str.strip`) are modelled on the ASCII range the CTA feeds use.
* The `America/Chicago` offset uses the current (post-2007) US DST rule,
  with PEP 495 fold=0 disambiguation, extended to all years.
-/

/-- A JSON value (numbers restricted to integers, which is all the CTA bus
error envelope carries). -/
inductive Json where
  | null
  | bool (b : Bool)
  | num (n : Int)
  | str (s : String)
  | arr (elems : List Json)
  | obj (fields : List (String × Json))

/-- Python truthiness of a JSON value (`if resp["error"]:`). -/
def jsonTruthy : Json → Bool
  | Json.null => false
  | Json.bool b => b
  | Json.num n => n != 0
  | Json.str s => !s.isEmpty
  | Json.arr es => !es.isEmpty
  | Json.obj kvs => !kvs.isEmpty

/-- The single-quote character used by Python `repr` of strings. -/
def pyQuote : String := String.singleton (Char.ofNat 39)

mutual

/-- Model of Python `repr` on a JSON-shaped value (used through `str` on
containers); internal quote escaping is elided. -/
def pyRepr : Json → String
  | Json.null => "None"
  | Json.bool true => "True"
  | Json.bool false => "False"
  | Json.num n => toString n
  | Json.str s => pyQuote ++ s ++ pyQuote
  | Json.arr es => "[" ++ pyReprList es ++ "]"
  | Json.obj kvs => "\x7b" ++ pyReprObj kvs ++ "\x7d"

/-- Rendering of the comma-separated elements of a Python list. -/
def pyReprList : List Json → String
  | [] => ""
  | [x] => pyRepr x
  | x :: xs => pyRepr x ++ ", " ++ pyReprList xs

/-- Rendering of the comma-separated entries of a Python dict. -/
def pyReprObj : List (String × Json) → String
  | [] => ""
  | [(k, v)] => pyQuote ++ k ++ pyQuote ++ ": " ++ pyRepr v
  | (k, v) :: xs => pyQuote ++ k ++ pyQuote ++ ": " ++ pyRepr v ++ ", " ++ pyReprObj xs

end

/-- Model of Python `str` on a JSON-shaped value: identity on strings,
`repr` otherwise. -/
def pyStr : Json → String
  | Json.str s => s
  | v => pyRepr v

/-- Model of Python `str` on an optional string coming from
`ElementTree.findtext` (an f-string renders `None` as `"None"`). -/
def pyOptStr : Option String → String
  | none => "None"
  | some s => s

/-- Python whitespace test of `str.strip` (ASCII range). -/
def isPySpace (c : Char) : Bool := c.toNat == 32 || (9 ≤ c.toNat && c.toNat ≤ 13)

/-- Model of Python `str.strip()`: drop whitespace from both ends. -/
def pyStrip (s : String) : String :=
  String.mk (((s.data.dropWhile isPySpace).reverse.dropWhile isPySpace).reverse)

/-- Model of Python `str.upper()` (ASCII range, as in `Char.toUpper`). -/
def pyUpper (s : String) : String := String.mk (s.data.map Char.toUpper)

/-- Model of Python `str.lower()` (ASCII range, as in `Char.toLower`). -/
def pyLower (s : String) : String := String.mk (s.data.map Char.toLower)

/-- Model of Python `str.isdigit()` (ASCII range): non-empty and all
decimal digits. -/
def pyIsDigit (s : String) : Bool := !s.data.isEmpty && s.data.all Char.isDigit

/-- Numeric value of a decimal digit character. -/
def digitVal (c : Char) : Nat := c.toNat - 48

/-- Model of Python `int(...)` on a digit string. -/
def digitsToNat (s : String) : Nat := s.data.foldl (fun n c => 10 * n + digitVal c) 0

/-- Python string comparison, `a < b` on code-point lists (lexicographic).
Python compares strings code point by code point, a strict prefix being
smaller. -/
def charListLtb : List Char → List Char → Bool
  | _, [] => false
  | [], _ :: _ => true
  | a :: as, b :: bs =>
    if a.toNat < b.toNat then true
    else if b.toNat < a.toNat then false
    else charListLtb as bs

/-- Python `a < b` on strings. -/
def strLtb (a b : String) : Bool := charListLtb a.data b.data

/-- A parsed civil date-time, as produced by
`datetime.strptime(s, "%Y%m%d %H:%M:%S")`. -/
structure DateTime where
  year : Nat
  month : Nat
  day : Nat
  hour : Nat
  minute : Nat
  second : Nat
deriving DecidableEq, Repr

/-- Gregorian leap-year test. -/
def isLeap (y : Nat) : Bool :=
  y % 4 == 0 && (y % 100 != 0 || y % 400 == 0)

/-- Number of days in a month (the validation `datetime` performs). -/
def daysInMonth (y m : Nat) : Nat :=
  if m = 2 then (if isLeap y then 29 else 28)
  else if m = 4 ∨ m = 6 ∨ m = 9 ∨ m = 11 then 30
  else 31

/-- Days from 1970-01-01 to the civil date `y-m-d` (Gregorian calendar). -/
def daysFromCivil (y m d : Nat) : Int :=
  let y2 : Nat := if m ≤ 2 then y - 1 else y
  let era : Nat := y2 / 400
  let yoe : Nat := y2 % 400
  let mp : Nat := if m > 2 then m - 3 else m + 9
  let doy : Nat := (153 * mp + 2) / 5 + d - 1
  let doe : Nat := yoe * 365 + yoe / 4 - yoe / 100 + doy
  (era : Int) * 146097 + (doe : Int) - 719468

/-- Seconds from the epoch to a civil (naive, offset-free) date-time. -/
def naiveSecs (t : DateTime) : Int :=
  daysFromCivil t.year t.month t.day * 86400
    + (t.hour : Int) * 3600 + (t.minute : Int) * 60 + (t.second : Int)

/-- Day of week of a civil date, 0 = Sunday (1970-01-01 was a Thursday). -/
def weekday (y m d : Nat) : Int :=
  (daysFromCivil y m d + 4) % 7

/-- Day of month of the second Sunday of March. -/
def secondSundayOfMarch (y : Nat) : Nat :=
  let w : Nat := (weekday y 3 1).toNat
  1 + (7 - w) % 7 + 7

/-- Day of month of the first Sunday of November. -/
def firstSundayOfNovember (y : Nat) : Nat :=
  let w : Nat := (weekday y 11 1).toNat
  1 + (7 - w) % 7

/-- Whether Central Daylight Time is in effect for a naive local time
(second Sunday of March 03:00 up to first Sunday of November 02:00,
fold=0 disambiguation as in `zoneinfo`). -/
def isCDT (t : DateTime) : Bool :=
  let n := naiveSecs t
  naiveSecs ⟨t.year, 3, secondSundayOfMarch t.year, 3, 0, 0⟩ ≤ n
    && n < naiveSecs ⟨t.year, 11, firstSundayOfNovember t.year, 2, 0, 0⟩

/-- UTC offset in seconds attached by `replace(tzinfo=ZoneInfo("America/Chicago"))`. -/
def chicagoOffset (t : DateTime) : Int :=
  if isCDT t then -18000 else -21600

/-- The instant (seconds since the epoch) denoted by a Chicago-local
date-time; aware-`datetime` subtraction subtracts these instants. -/
def instant (t : DateTime) : Int :=
  naiveSecs t - chicagoOffset t

/-- Two-digit zero-padded decimal rendering. -/
def pad2 (n : Nat) : String :=
  if n < 10 then "0" ++ toString n else toString n

/-- Four-digit zero-padded decimal rendering. -/
def pad4 (n : Nat) : String :=
  if n < 10 then "000" ++ toString n
  else if n < 100 then "00" ++ toString n
  else if n < 1000 then "0" ++ toString n
  else toString n

/-- Model of `datetime.isoformat()` on a Chicago-aware date-time. -/
def isoformat (t : DateTime) : String :=
  pad4 t.year ++ "-" ++ pad2 t.month ++ "-" ++ pad2 t.day ++ "T"
    ++ pad2 t.hour ++ ":" ++ pad2 t.minute ++ ":" ++ pad2 t.second
    ++ (if isCDT t then "-05:00" else "-06:00")

/-- Month candidates of the strptime regex `(?P<m>1[0-2]|0[1-9]|[1-9])` at
the head of the input, in alternation (= backtracking preference) order,
each with the remaining input. -/
def monthCandidates : List Char → List (Nat × List Char)
  | c1 :: c2 :: r =>
    (if c1 == '1' && (c2 == '0' || c2 == '1' || c2 == '2') then
      [(10 + digitVal c2, r)] else [])
    ++ (if c1 == '0' && (c2.isDigit && c2 != '0') then [(digitVal c2, r)] else [])
    ++ (if c1.isDigit && c1 != '0' then [(digitVal c1, c2 :: r)] else [])
  | [c1] => if c1.isDigit && c1 != '0' then [(digitVal c1, [])] else []
  | [] => []

/-- Day candidates of the strptime regex
`(?P<d>3[0-1]|[1-2]\d|0[1-9]|[1-9]| [1-9])` (note the final
space-padded-day alternative CPython includes) in alternation order. -/
def dayCandidates : List Char → List (Nat × List Char)
  | c1 :: c2 :: r =>
    (if c1 == '3' && (c2 == '0' || c2 == '1') then [(30 + digitVal c2, r)] else [])
    ++ (if (c1 == '1' || c1 == '2') && c2.isDigit then
      [(10 * digitVal c1 + digitVal c2, r)] else [])
    ++ (if c1 == '0' && (c2.isDigit && c2 != '0') then [(digitVal c2, r)] else [])
    ++ (if c1.isDigit && c1 != '0' then [(digitVal c1, c2 :: r)] else [])
    ++ (if c1 == ' ' && (c2.isDigit && c2 != '0') then [(digitVal c2, r)] else [])
  | [c1] => if c1.isDigit && c1 != '0' then [(digitVal c1, [])] else []
  | [] => []

/-- Hour and following colon, `(?P<H>2[0-3]|[0-1]\d|\d):`: the two-digit
alternatives are tried first; when the colon does not follow, the engine
falls back to the one-digit alternative (the two cases are disjoint on the
second character, so the choice is deterministic). -/
def parseHourColon : List Char → Option (Nat × List Char)
  | c1 :: c2 :: c3 :: rest =>
    if ((c1 == '2' && (c2 == '0' || c2 == '1' || c2 == '2' || c2 == '3'))
        || ((c1 == '0' || c1 == '1') && c2.isDigit)) && c3 == ':' then
      some (10 * digitVal c1 + digitVal c2, rest)
    else if c1.isDigit && c2 == ':' then some (digitVal c1, c3 :: rest)
    else none
  | [c1, c2] => if c1.isDigit && c2 == ':' then some (digitVal c1, []) else none
  | _ => none

/-- Minute and following colon, `(?P<M>[0-5]\d|\d):`, same scheme. -/
def parseMinuteColon : List Char → Option (Nat × List Char)
  | c1 :: c2 :: c3 :: rest =>
    if (c1.isDigit && digitVal c1 ≤ 5) && c2.isDigit && c3 == ':' then
      some (10 * digitVal c1 + digitVal c2, rest)
    else if c1.isDigit && c2 == ':' then some (digitVal c1, c3 :: rest)
    else none
  | [c1, c2] => if c1.isDigit && c2 == ':' then some (digitVal c1, []) else none
  | _ => none

/-- Second at the end of the input, `(?P<S>6[0-1]|[0-5]\d|\d)`: the regex
match is not end-anchored, but strptime raises on unconverted leftover
input afterwards, without further backtracking, so only a whole-remainder
first-alternative match succeeds. -/
def parseSecondEnd : List Char → Option Nat
  | [c] => if c.isDigit then some (digitVal c) else none
  | [c1, c2] =>
    if c1 == '6' && (c2 == '0' || c2 == '1') then some (60 + digitVal c2)
    else if (c1.isDigit && digitVal c1 ≤ 5) && c2.isDigit then
      some (10 * digitVal c1 + digitVal c2)
    else none
  | _ => none

/-- The `\s+` separator (the format space, which CPython turns into
`\s+`) followed by the time-of-day part, consuming the whole rest of the
input. Greedy whitespace is safe: the hour never matches a whitespace
character. -/
def wsHmsEnd (l : List Char) : Option (Nat × Nat × Nat) :=
  match l with
  | [] => none
  | c :: _ =>
    if isPySpace c then
      match parseHourColon (l.dropWhile isPySpace) with
      | none => none
      | some (h, r1) =>
        match parseMinuteColon r1 with
        | none => none
        | some (mi, r2) =>
          match parseSecondEnd r2 with
          | none => none
          | some se => some (h, mi, se)
    else none

/-- Backtracking over the day alternatives for a fixed month choice. -/
def tryDays (mo : Nat) : List (Nat × List Char) → Option (Nat × Nat × Nat × Nat × Nat)
  | [] => none
  | (da, r) :: more =>
    match wsHmsEnd r with
    | some (h, mi, se) => some (mo, da, h, mi, se)
    | none => tryDays mo more

/-- Backtracking over the month alternatives: the first month/day split
whose remainder completes the whole pattern wins, exactly as the regex
engine commits to it. -/
def tryMonths : List (Nat × List Char) → Option (Nat × Nat × Nat × Nat × Nat)
  | [] => none
  | (mo, r) :: more =>
    match tryDays mo (dayCandidates r) with
    | some res => some res
    | none => tryMonths more

/-- Model of `datetime.strptime(s, "%Y%m%d %H:%M:%S")` as CPython's
`_strptime` implements it: the format compiles to the regex
`(?P<Y>\d\d\d\d)(?P<m>1[0-2]|0[1-9]|[1-9])(?P<d>3[0-1]|[1-2]\d|0[1-9]|[1-9]| [1-9])\s+(?P<H>2[0-3]|[0-1]\d|\d):(?P<M>[0-5]\d|\d):(?P<S>6[0-1]|[0-5]\d|\d)`
matched at the start of the string with alternation-ordered backtracking;
a match leaving unconverted input raises, and the subsequent
`datetime(...)` construction raises on year 0, a day beyond the month's
length, and (regex-reachable) seconds 60-61. `none` models the
`ValueError` raise. One-digit fields, a space-padded day and runs of
whitespace as the separator are accepted, matching CPython. -/
def strptimeYmdHms (s : String) : Option DateTime :=
  match s.data with
  | y1 :: y2 :: y3 :: y4 :: rest =>
    if [y1, y2, y3, y4].all Char.isDigit then
      let y := ((digitVal y1 * 10 + digitVal y2) * 10 + digitVal y3) * 10 + digitVal y4
      match tryMonths (monthCandidates rest) with
      | none => none
      | some (mo, da, h, mi, se) =>
        if 1 ≤ y && da ≤ daysInMonth y mo && se ≤ 59 then
          some ⟨y, mo, da, h, mi, se⟩
        else none
    else none
  | _ => none

/-- The strptime call as the raising operation `_parse_eta` calls: a failed parse
is the `ValueError` that aborts the element (message abridged). -/
def strptimeE (s : String) : Except String DateTime :=
  match strptimeYmdHms s with
  | some t => Except.ok t
  | none => Except.error ("time data " ++ s ++ " does not match format %Y%m%d %H:%M:%S")

/-- One `<eta>` element of the rail XML, as the fields `_parse_eta` reads:
`none` models a missing child element or one with empty text. -/
structure EtaElem where
  prdt : Option String := none
  arrT : Option String := none
  staNm : Option String := none
  stpDe : Option String := none
  rt : Option String := none
  destNm : Option String := none
  isApp : Option String := none
  isSch : Option String := none
  isDly : Option String := none
deriving DecidableEq, Repr

/-- The helper `txt` inside `_parse_eta`: the stripped element text, or
`""` when the element is missing or has falsy text. -/
def txt (f : Option String) : String := pyStrip (f.getD "")

/-- A normalized rail departure, the dict `_parse_eta` returns. -/
structure RailDep where
  station_name : String
  platform : String
  route : String
  dest_name : String
  predicted_at : String
  arrives_at : String
  minutes : Int
  is_approaching : Bool
  is_scheduled : Bool
  is_delayed : Bool
deriving DecidableEq, Repr

/-- Model of `_parse_eta` (app.py lines 26-45): parse the two timestamps (raising
aborts the element and, through the comprehension in `poll_once`, the whole
cycle), clamp the floor-divided minute difference at zero, and copy the
text fields, tolerating missing/empty text. -/
def parse_eta (e : EtaElem) : Except String RailDep :=
  match strptimeE (txt e.prdt) with
  | Except.error msg => Except.error msg
  | Except.ok prdt =>
    match strptimeE (txt e.arrT) with
    | Except.error msg => Except.error msg
    | Except.ok arrT =>
      Except.ok
        { station_name := txt e.staNm
          platform := txt e.stpDe
          route := txt e.rt
          dest_name := txt e.destNm
          predicted_at := isoformat prdt
          arrives_at := isoformat arrT
          minutes := max ((instant arrT - instant prdt).fdiv 60) 0
          is_approaching := txt e.isApp == "1"
          is_scheduled := txt e.isSch == "1"
          is_delayed := txt e.isDly == "1" }

/-- The `<ctatt>` document of the rail API as `poll_once` reads it:
`findtext` results for `errCd`/`errNm` and the list of `<eta>` elements. -/
structure RailResponse where
  errCd : Option String := none
  errNm : Option String := none
  etas : List EtaElem := []

/-- The lexicographic order on `(arrives_at, route)` sort keys that Python
tuple comparison applies. -/
def pairLe (p q : String × String) : Prop :=
  strLtb p.1 q.1 = true ∨ (p.1 = q.1 ∧ strLtb q.2 p.2 = false)

instance : DecidableRel pairLe := fun p q =>
  inferInstanceAs (Decidable (strLtb p.1 q.1 = true ∨ (p.1 = q.1 ∧ strLtb q.2 p.2 = false)))

/-- The rail sort key, `lambda e: (e["arrives_at"], e["route"])`. -/
def railKey (d : RailDep) : String × String := (d.arrives_at, d.route)

/-- Comparison of rail departures by sort key. -/
def railLe (a b : RailDep) : Prop := pairLe (railKey a) (railKey b)

instance : DecidableRel railLe := fun a b =>
  inferInstanceAs (Decidable (pairLe (railKey a) (railKey b)))

/-- The error-propagating list map a Python list comprehension performs:
the first raising element aborts the whole comprehension. -/
def mapE (f : α → Except ε β) : List α → Except ε (List β)
  | [] => Except.ok []
  | x :: xs =>
    match f x with
    | Except.error e => Except.error e
    | Except.ok y =>
      match mapE f xs with
      | Except.error e => Except.error e
      | Except.ok ys => Except.ok (y :: ys)

/-- The message of the `RuntimeError` raised on a non-zero rail error code
(the f-string on line 91). -/
def railErrMsg (code : String) (name : Option String) : String :=
  "CTA error " ++ code ++ ": " ++ pyOptStr name

/-- Parse-and-sort tail of `poll_once` (lines 92-93). -/
def railItems (r : RailResponse) : Except String (List RailDep) :=
  match mapE parse_eta r.etas with
  | Except.error e => Except.error e
  | Except.ok items => Except.ok (List.insertionSort railLe items)

/-- The body of `poll_once` after the HTTP fetch and XML decode (lines
88-93), producing the departure list that lines 94-96 publish: fail on a
truthy, non-`"0"` error code, else normalize every element and sort. -/
def pollOncePure (r : RailResponse) : Except String (List RailDep) :=
  match r.errCd with
  | some c => if c != "" && c != "0" then Except.error (railErrMsg c r.errNm) else railItems r
  | none => railItems r

/-- One prediction object of the bus JSON, with the field types the v3
`getpredictions` format documents (`none` models an absent key). -/
structure BusPrd where
  stpid : Option String := none
  stpnm : Option String := none
  rt : Option String := none
  rtdir : Option String := none
  des : Option String := none
  vid : Option String := none
  tmstmp : Option String := none
  prdtm : Option String := none
  prdctdn : Option String := none
  dly : Option Bool := none
  dyn : Option Int := none
deriving DecidableEq, Repr

/-- A normalized bus departure, the dict `_parse_bus_prd` returns. -/
structure BusDep where
  stop_id : String
  stop_name : String
  route : String
  direction : String
  dest_name : String
  vehicle_id : String
  predicted_at : String
  arrives_at : String
  minutes : Option Nat
  is_delayed : Bool
  dyn : Int
deriving DecidableEq, Repr

/-- Model of `_parse_bus_prd` (app.py lines 48-71): countdown is an integer when the
stripped field is a digit string, 0 for a case-insensitive `"DUE"`, absent
otherwise; the remaining fields are copied with falsy defaults. Total: a
prediction object never fails the cycle. -/
def parse_bus_prd (p : BusPrd) : BusDep :=
  let raw := pyStrip (p.prdctdn.getD "")
  let minutes : Option Nat :=
    if pyIsDigit raw then some (digitsToNat raw)
    else if pyUpper raw == "DUE" then some 0 else none
  { stop_id := p.stpid.getD ""
    stop_name := p.stpnm.getD ""
    route := p.rt.getD ""
    direction := p.rtdir.getD ""
    dest_name := p.des.getD ""
    vehicle_id := p.vid.getD ""
    predicted_at := p.tmstmp.getD ""
    arrives_at := p.prdtm.getD ""
    minutes := minutes
    is_delayed := p.dly.getD false
    dyn := p.dyn.getD 0 }

/-- The `bustime-response` envelope as `poll_bus_once` reads it: the raw
`error` value (shape unknown until inspected) and the prediction list
(`none` covers both a missing and a falsy `prd`, which `or []` blanks). -/
structure BusEnvelope where
  error : Option Json := none
  prd : Option (List BusPrd) := none

/-- The decoded top-level bus JSON: `envelope = none` models a document
without the `"bustime-response"` key. -/
structure BusResponse where
  envelope : Option BusEnvelope := none

/-- The per-entry extraction `e.get("msg", "")` that the `"; ".join(...)`
generator performs: `none` when the entry makes the generator raise (a
non-dict entry, or a non-string `msg` value that `join` rejects). -/
def msgOf : Json → Option String
  | Json.obj kvs =>
    match kvs.lookup "msg" with
    | none => some ""
    | some (Json.str s) => some s
    | some _ => none
  | _ => none

/-- All `msg` fields of the raw error value, when it is a list whose every
entry yields one (otherwise the join raises and `poll_bus_once` falls back
to `str`). -/
def extractMsgs : Json → Option (List String)
  | Json.arr es => es.mapM msgOf
  | _ => none

/-- The error string `poll_bus_once` builds from a truthy error value
(lines 120-126): the `"; "`-join of the `msg` fields, the literal
`"Bus API error"` when that join is empty, or `str` of the raw value when
the join raises. -/
def busErrMsg (v : Json) : String :=
  match extractMsgs v with
  | some msgs =>
    let m := String.intercalate "; " msgs
    if m = "" then "Bus API error" else m
  | none => pyStr v

/-- The bus sort key, `lambda e: (e.get("arrives_at") or "", e.get("route") or "")`
(`or ""` is the identity on the string-valued fields, both defaulting to `""`). -/
def busKey (d : BusDep) : String × String := (d.arrives_at, d.route)

/-- Comparison of bus departures by sort key. -/
def busLe (a b : BusDep) : Prop := pairLe (busKey a) (busKey b)

instance : DecidableRel busLe := fun a b =>
  inferInstanceAs (Decidable (pairLe (busKey a) (busKey b)))

/-- Normalize-filter step of `poll_bus_once` (lines 128-130): parse every
prediction, keep the ones whose direction lower-cases to `"southbound"`. -/
def busItems (env : BusEnvelope) : List BusDep :=
  ((env.prd.getD []).map parse_bus_prd).filter
    (fun p => pyLower p.direction == "southbound")

/-- The body of `poll_bus_once` after the HTTP fetch and JSON decode
(lines 116-132), producing the list that lines 133-135 publish: fail on a
missing envelope, fail on a present truthy error value, else normalize,
filter by direction and sort. -/
def pollBusPure (r : BusResponse) : Except String (List BusDep) :=
  match r.envelope with
  | none => Except.error "Unexpected Bus API response"
  | some env =>
    match env.error with
    | some v =>
      if jsonTruthy v then Except.error (busErrMsg v)
      else Except.ok (List.insertionSort busLe (busItems env))
    | none => Except.ok (List.insertionSort busLe (busItems env))

/-- One feed's cache slot (`_cache` / `_bus_cache`): last successful data,
its timestamp, and the most recent cycle's error. -/
structure FeedCache (α : Type) where
  updated_at : Option String
  data : List α
  error : Option String
deriving DecidableEq, Repr

/-- Python truthiness of a nullable error string (`if _cache["error"]:`),
i.e. present with a non-empty message. -/
def errTruthy (o : Option String) : Bool := !(o.getD "").isEmpty

/-- One iteration of `poll_forever` (lines 137-143) given the fetch/decode
outcome `fetched` and the current wall-clock string `now`: on success the
cache is wholly replaced (lines 94-96, which run after every fail point of
`poll_once`), on any failure only `error` is overwritten with `str(e)`
(line 142). -/
def railCycle (fetched : Except String RailResponse) (now : String)
    (c : FeedCache RailDep) : FeedCache RailDep :=
  match fetched.bind pollOncePure with
  | Except.ok items => ⟨some now, items, none⟩
  | Except.error e => { c with error := some e }

/-- One iteration of `poll_bus_forever` (lines 146-152), same shape as
`railCycle` with the writes of lines 133-135 / 151. -/
def busCycle (fetched : Except String BusResponse) (now : String)
    (c : FeedCache BusDep) : FeedCache BusDep :=
  match fetched.bind pollBusPure with
  | Except.ok items => ⟨some now, items, none⟩
  | Except.error e => { c with error := some e }

/-- The shared shape of the two read endpoints (lines 162-174): raise
`HTTPException(502, detail=error)` when the feed has never succeeded and
holds a truthy error, else return the cache snapshot unchanged. -/
def snapshotRead (c : FeedCache α) : Except String (FeedCache α) :=
  if c.updated_at.isNone && errTruthy c.error then Except.error (c.error.getD "")
  else Except.ok c

/-- Endpoint `GET /api/departures` (`get_departures`, lines 162-166). -/
def get_departures (c : FeedCache RailDep) : Except String (FeedCache RailDep) :=
  snapshotRead c

/-- Endpoint `GET /api/bus` (`get_bus_departures`, lines 170-174). -/
def get_bus_departures (c : FeedCache BusDep) : Except String (FeedCache BusDep) :=
  snapshotRead c

/-- Claim-side restatement of the bus countdown contract (C4's words): the
integer value when the whitespace-stripped field is a digit string, 0 when
it equals `"DUE"` case-insensitively, absent otherwise. Compared below
with the minutes `_parse_bus_prd` actually produces. -/
def busMinutesSpec (countdown : Option String) : Option Nat :=
  let t := pyStrip (countdown.getD "")
  if pyIsDigit t = true then some (digitsToNat t)
  else if pyUpper t = "DUE" then some 0 else none

/-- A concrete normalized rail departure used in witness states. -/
def dummyRailDep : RailDep :=
  ⟨"Montrose", "Service toward Loop", "Brn", "Loop", "2024-01-01T07:00:00-06:00",
    "2024-01-01T07:04:00-06:00", 4, false, false, false⟩

/-- A concrete normalized bus departure used in witness states. -/
def dummyBusDep : BusDep :=
  ⟨"1", "Ashland and Montrose", "9", "Southbound", "74th", "77", "t0", "t1",
    some 3, false, 0⟩

/-- Rail element whose arrival precedes its prediction (for the clamp). -/
def eta3 : EtaElem := { prdt := some "20240101 08:10:00", arrT := some "20240101 08:00:00" }

/-- Parsed `prdt` of `eta3`. -/
def dp3 : DateTime := ⟨2024, 1, 1, 8, 10, 0⟩

/-- Parsed `arrT` of `eta3`. -/
def da3 : DateTime := ⟨2024, 1, 1, 8, 0, 0⟩

/-- Departure `_parse_eta` yields for `eta3`: minutes clamped to 0. -/
def railDep3 : RailDep :=
  { station_name := "", platform := "", route := "", dest_name := ""
    predicted_at := "2024-01-01T08:10:00-06:00"
    arrives_at := "2024-01-01T08:00:00-06:00"
    minutes := 0
    is_approaching := false, is_scheduled := false, is_delayed := false }

/-- Bus prediction with route B in the tie-break scenario. -/
def pB5 : BusPrd := { rt := some "B", rtdir := some "Southbound", prdtm := some "2024-01-01T08:00:00" }

/-- Bus prediction with route A in the tie-break scenario. -/
def pA5 : BusPrd := { rt := some "A", rtdir := some "Southbound", prdtm := some "2024-01-01T08:00:00" }

/-- Bus response listing route B before route A, both arriving at the same
instant. -/
def busResp5 : BusResponse := ⟨some ⟨none, some [pB5, pA5]⟩⟩

/-- A well-formed rail element. -/
def eta5 : EtaElem := { prdt := some "20240101 08:00:00", arrT := some "20240101 08:05:00" }

/-- A rail response with the single element `eta5` and no error code. -/
def railResp5 : RailResponse := { etas := [eta5] }

/-- Departure `_parse_eta` yields for `eta5`. -/
def railDep5 : RailDep :=
  { station_name := "", platform := "", route := "", dest_name := ""
    predicted_at := "2024-01-01T08:00:00-06:00"
    arrives_at := "2024-01-01T08:05:00-06:00"
    minutes := 5
    is_approaching := false, is_scheduled := false, is_delayed := false }

/-- Rail response carrying error code 1, "Bad Request". -/
def railResp6 : RailResponse := { errCd := some "1", errNm := some "Bad Request" }

/-- A populated rail cache state prior to a cycle. -/
def cacheR1 : FeedCache RailDep := ⟨some "2024-01-01T07:30:00-06:00", [dummyRailDep], none⟩

/-- A populated bus cache state prior to a cycle. -/
def cacheB1 : FeedCache BusDep := ⟨some "2024-01-01T07:30:00-06:00", [dummyBusDep], none⟩

/-- Error envelope value whose single entry has an empty message. -/
def errListEmptyMsg : Json := Json.arr [Json.obj [("msg", Json.str "")]]

/-- Bus response whose error list joins to the empty string. -/
def busRespCex : BusResponse := ⟨some ⟨some errListEmptyMsg, some []⟩⟩

/-- Error envelope value with two entries carrying messages. -/
def errListTwo : Json :=
  Json.arr [Json.obj [("msg", Json.str "No data found for parameter")],
    Json.obj [("msg", Json.str "Invalid stop")]]

/-- Bus response with a non-empty two-entry error list. -/
def busRespErr : BusResponse := ⟨some ⟨some errListTwo, none⟩⟩

/-- Bus response whose document has no `bustime-response` key. -/
def busRespNoEnv : BusResponse := ⟨none⟩

/-- Bus response whose error value is a bare string (join raises, the code
falls back to `str`). -/
def busRespStrErr : BusResponse := ⟨some ⟨some (Json.str "server melted"), none⟩⟩

/-- Southbound bus prediction for the direction filter scenario. -/
def pS8 : BusPrd := { rtdir := some "Southbound", rt := some "9", prdtm := some "t1" }

/-- Northbound bus prediction for the direction filter scenario. -/
def pN8 : BusPrd := { rtdir := some "Northbound", rt := some "9", prdtm := some "t2" }

/-- Bus response carrying one Southbound and one Northbound prediction. -/
def busResp8 : BusResponse := ⟨some ⟨none, some [pS8, pN8]⟩⟩

/-- Bus response with `prd: []` (success with an empty sequence). -/
def busRespEmpty : BusResponse := ⟨some ⟨none, some []⟩⟩

/-- Rail element whose `prdt` text is not a timestamp. -/
def etaBadPrdt : EtaElem := { prdt := some "not a time", arrT := some "20240101 08:00:00" }

/-- Rail element whose `arrT` text is in the wrong (dashed) format. -/
def etaBadArrT : EtaElem := { prdt := some "20240101 08:00:00", arrT := some "2024-01-01 08:00:00" }

/-- Rail element with every child element missing. -/
def etaMissing : EtaElem := {}

/-- Rail element with valid timestamps and all other fields missing. -/
def eta10 : EtaElem := { prdt := some "20240101 09:00:00", arrT := some "20240101 09:02:00" }

/-- Rail response mixing a good element and a malformed one. -/
def railResp10 : RailResponse := { etas := [eta10, etaBadPrdt] }

/-- Rail cache that has never succeeded and holds an error. -/
def cacheNotReady : FeedCache RailDep := ⟨none, [], some "CTA error 1: Bad Request"⟩

/-- Rail cache holding stale data alongside a fresh error. -/
def cacheStale : FeedCache RailDep := ⟨some "2024-01-01T07:30:00-06:00", [dummyRailDep], some "timeout"⟩

/-- Bus cache that has never succeeded and holds an error. -/
def cacheBusNotReady : FeedCache BusDep := ⟨none, [], some "Unexpected Bus API response"⟩

/-- Fresh bus cache with no error. -/
def cacheBusFresh : FeedCache BusDep := ⟨some "2024-01-01T07:30:00-06:00", [dummyBusDep], none⟩

/-- Rail element whose timestamps are not in the exact 17-character
"YYYYMMDD HH:MM:SS" shape (one-digit hours, 16 characters) yet are
accepted by strptime's flexible matching. -/
def etaFlex : EtaElem := { prdt := some "20240101 8:00:00", arrT := some "20240101 8:05:00" }

/-- Departure `_parse_eta` yields for `etaFlex`. -/
def railDepFlex : RailDep :=
  { station_name := "", platform := "", route := "", dest_name := ""
    predicted_at := "2024-01-01T08:00:00-06:00"
    arrives_at := "2024-01-01T08:05:00-06:00"
    minutes := 5
    is_approaching := false, is_scheduled := false, is_delayed := false }

/-- Rail response whose single element carries the flexible timestamps. -/
def railRespFlex : RailResponse := { etas := [etaFlex] }

/-! ## Helper lemmas -/

/-- No character list is less than itself. -/
theorem charListLtb_irrefl (as : List Char) : charListLtb as as = false := by
  induction as with
  | nil => rfl
  | cons a as ih => simp [charListLtb, ih]

/-- Characters with equal code points are equal. -/
theorem char_eq_of_toNat_eq {a b : Char} (h : a.toNat = b.toNat) : a = b :=
  Char.ofNat_toNat a ▸ Char.ofNat_toNat b ▸ congrArg Char.ofNat h

/-- The code-point comparison is asymmetric. -/
theorem charListLtb_asymm (as : List Char) :
    ∀ bs, charListLtb as bs = true → charListLtb bs as = false := by
  induction as with
  | nil =>
    intro bs h
    cases bs with
    | nil => simp [charListLtb] at h
    | cons b bs => simp [charListLtb]
  | cons a as ih =>
    intro bs h
    cases bs with
    | nil => simp [charListLtb] at h
    | cons b bs =>
      rcases Nat.lt_trichotomy a.toNat b.toNat with hlt | heq | hgt
      · have h1 : ¬ b.toNat < a.toNat := by omega
        simp [charListLtb, h1, hlt]
      · have h1 : ¬ a.toNat < b.toNat := by omega
        have h2 : ¬ b.toNat < a.toNat := by omega
        simp only [charListLtb, if_neg h1, if_neg h2] at h ⊢
        exact ih bs h
      · simp [charListLtb, hgt, show ¬ a.toNat < b.toNat by omega] at h

/-- Mutually incomparable character lists are equal. -/
theorem charListLtb_antisymm (as : List Char) :
    ∀ bs, charListLtb as bs = false → charListLtb bs as = false → as = bs := by
  induction as with
  | nil =>
    intro bs h1 _
    cases bs with
    | nil => rfl
    | cons b bs => simp [charListLtb] at h1
  | cons a as ih =>
    intro bs h1 h2
    cases bs with
    | nil => simp [charListLtb] at h2
    | cons b bs =>
      rcases Nat.lt_trichotomy a.toNat b.toNat with hlt | heq | hgt
      · simp [charListLtb, hlt] at h1
      · have g1 : ¬ a.toNat < b.toNat := by omega
        have g2 : ¬ b.toNat < a.toNat := by omega
        simp only [charListLtb, if_neg g1, if_neg g2] at h1 h2
        rw [char_eq_of_toNat_eq heq, ih bs h1 h2]
      · simp [charListLtb, hgt] at h2

/-- The code-point comparison is transitive. -/
theorem charListLtb_trans (as : List Char) :
    ∀ bs cs, charListLtb as bs = true → charListLtb bs cs = true →
      charListLtb as cs = true := by
  induction as with
  | nil =>
    intro bs cs h1 h2
    cases cs with
    | nil =>
      cases bs with
      | nil => simp [charListLtb] at h1
      | cons b bs => simp [charListLtb] at h2
    | cons c cs => simp [charListLtb]
  | cons a as ih =>
    intro bs cs h1 h2
    cases bs with
    | nil => simp [charListLtb] at h1
    | cons b bs =>
      cases cs with
      | nil => simp [charListLtb] at h2
      | cons c cs =>
        rcases Nat.lt_trichotomy a.toNat b.toNat with hab | hab | hab <;>
          rcases Nat.lt_trichotomy b.toNat c.toNat with hbc | hbc | hbc
        · simp [charListLtb, show a.toNat < c.toNat by omega]
        · simp [charListLtb, show a.toNat < c.toNat by omega]
        · simp [charListLtb, show ¬ b.toNat < c.toNat by omega, hbc] at h2
        · simp [charListLtb, show a.toNat < c.toNat by omega]
        · have g1 : ¬ a.toNat < b.toNat := by omega
          have g2 : ¬ b.toNat < a.toNat := by omega
          have g3 : ¬ b.toNat < c.toNat := by omega
          have g4 : ¬ c.toNat < b.toNat := by omega
          simp only [charListLtb, if_neg g1, if_neg g2, if_neg g3, if_neg g4] at h1 h2
          simp only [charListLtb, if_neg (show ¬ a.toNat < c.toNat by omega),
            if_neg (show ¬ c.toNat < a.toNat by omega)]
          exact ih bs cs h1 h2
        · simp [charListLtb, show ¬ b.toNat < c.toNat by omega, hbc] at h2
        · simp [charListLtb, show ¬ a.toNat < b.toNat by omega, hab] at h1
        · simp [charListLtb, show ¬ a.toNat < b.toNat by omega, hab] at h1
        · simp [charListLtb, show ¬ a.toNat < b.toNat by omega, hab] at h1

/-- String version of asymmetry. -/
theorem strLtb_asymm {a b : String} (h : strLtb a b = true) : strLtb b a = false :=
  charListLtb_asymm a.data b.data h

/-- String version of antisymmetry of the non-strict comparison. -/
theorem strLtb_antisymm {a b : String} (h1 : strLtb a b = false)
    (h2 : strLtb b a = false) : a = b := by
  cases a with
  | mk da =>
    cases b with
    | mk db => exact congrArg String.mk (charListLtb_antisymm da db h1 h2)

/-- String version of transitivity. -/
theorem strLtb_trans {a b c : String} (h1 : strLtb a b = true)
    (h2 : strLtb b c = true) : strLtb a c = true :=
  charListLtb_trans a.data b.data c.data h1 h2

/-- Not-less-than means greater-than or equal (totality). -/
theorem strLtb_false_iff {a b : String} :
    strLtb a b = false ↔ (strLtb b a = true ∨ a = b) := by
  constructor
  · intro h
    cases hba : strLtb b a with
    | true => exact Or.inl rfl
    | false => exact Or.inr (strLtb_antisymm h hba)
  · intro h
    rcases h with h | rfl
    · exact strLtb_asymm h
    · exact charListLtb_irrefl a.data

/-- Transitivity of the non-strict string comparison. -/
theorem strLtb_le_trans {a b c : String} (h1 : strLtb b a = false)
    (h2 : strLtb c b = false) : strLtb c a = false := by
  rcases strLtb_false_iff.mp h1 with hab | rfl
  · rcases strLtb_false_iff.mp h2 with hbc | rfl
    · exact strLtb_asymm (strLtb_trans hab hbc)
    · exact strLtb_asymm hab
  · exact h2

/-- The `(arrives_at, route)` key order is total. -/
theorem pairLe_total (p q : String × String) : pairLe p q ∨ pairLe q p := by
  cases h1 : strLtb p.1 q.1 with
  | true => exact Or.inl (Or.inl h1)
  | false =>
    rcases strLtb_false_iff.mp h1 with hgt | heq
    · exact Or.inr (Or.inl hgt)
    · cases h2 : strLtb q.2 p.2 with
      | false => exact Or.inl (Or.inr ⟨heq, h2⟩)
      | true => exact Or.inr (Or.inr ⟨heq.symm, strLtb_asymm h2⟩)

/-- The `(arrives_at, route)` key order is transitive. -/
theorem pairLe_trans (p q r : String × String) :
    pairLe p q → pairLe q r → pairLe p r := by
  intro h1 h2
  rcases h1 with h1 | ⟨e1, l1⟩
  · rcases h2 with h2 | ⟨e2, l2⟩
    · exact Or.inl (strLtb_trans h1 h2)
    · exact Or.inl (e2 ▸ h1)
  · rcases h2 with h2 | ⟨e2, l2⟩
    · exact Or.inl (e1 ▸ h2)
    · exact Or.inr ⟨e1.trans e2, strLtb_le_trans l1 l2⟩

instance : IsTotal RailDep railLe := ⟨fun a b => pairLe_total (railKey a) (railKey b)⟩

instance : IsTrans RailDep railLe :=
  ⟨fun a b c => pairLe_trans (railKey a) (railKey b) (railKey c)⟩

instance : IsTotal BusDep busLe := ⟨fun a b => pairLe_total (busKey a) (busKey b)⟩

instance : IsTrans BusDep busLe :=
  ⟨fun a b c => pairLe_trans (busKey a) (busKey b) (busKey c)⟩

/-- Failed fetch/parse cycle: only the error field of the rail cache moves. -/
theorem railCycle_err {f : Except String RailResponse} {now : String}
    {c : FeedCache RailDep} {e : String} (h : f.bind pollOncePure = Except.error e) :
    railCycle f now c = { c with error := some e } := by
  unfold railCycle
  rw [h]

/-- Successful cycle: the rail cache is wholly replaced. -/
theorem railCycle_okk {f : Except String RailResponse} {now : String}
    {c : FeedCache RailDep} {items : List RailDep}
    (h : f.bind pollOncePure = Except.ok items) :
    railCycle f now c = ⟨some now, items, none⟩ := by
  unfold railCycle
  rw [h]

/-- Failed fetch/parse cycle: only the error field of the bus cache moves. -/
theorem busCycle_err {f : Except String BusResponse} {now : String}
    {c : FeedCache BusDep} {e : String} (h : f.bind pollBusPure = Except.error e) :
    busCycle f now c = { c with error := some e } := by
  unfold busCycle
  rw [h]

/-- Successful cycle: the bus cache is wholly replaced. -/
theorem busCycle_okk {f : Except String BusResponse} {now : String}
    {c : FeedCache BusDep} {items : List BusDep}
    (h : f.bind pollBusPure = Except.ok items) :
    busCycle f now c = ⟨some now, items, none⟩ := by
  unfold busCycle
  rw [h]

/-- A snapshot read raises 502 exactly on a never-succeeded cache holding a
truthy error. -/
theorem snapshotRead_error_iff {α : Type} (c : FeedCache α) :
    (∃ m, snapshotRead c = Except.error m) ↔
      (c.updated_at = none ∧ errTruthy c.error = true) := by
  unfold snapshotRead
  by_cases h : (c.updated_at.isNone && errTruthy c.error) = true
  · rw [if_pos h]
    simp only [Bool.and_eq_true, Option.isNone_iff_eq_none] at h
    exact ⟨fun _ => h, fun _ => ⟨_, rfl⟩⟩
  · rw [if_neg h]
    simp only [Bool.and_eq_true, Option.isNone_iff_eq_none] at h
    constructor
    · rintro ⟨m, hm⟩
      cases hm
    · intro hc
      exact absurd hc h

/-- A snapshot read in any other state returns the cache unchanged. -/
theorem snapshotRead_pass {α : Type} (c : FeedCache α)
    (h : ¬(c.updated_at = none ∧ errTruthy c.error = true)) :
    snapshotRead c = Except.ok c := by
  unfold snapshotRead
  rw [if_neg]
  simpa only [Bool.and_eq_true, Option.isNone_iff_eq_none] using h

/-- A raising element makes the whole comprehension raise. -/
theorem mapE_error_of_mem {α β : Type} {f : α → Except String β} {l : List α}
    {x : α} {m : String} (hx : x ∈ l) (hf : f x = Except.error m) :
    ∃ m2, mapE f l = Except.error m2 := by
  induction l with
  | nil => cases hx
  | cons a as ih =>
    rcases List.mem_cons.mp hx with rfl | hmem
    · exact ⟨m, by simp [mapE, hf]⟩
    · cases ha : f a with
      | error e => exact ⟨e, by simp [mapE, ha]⟩
      | ok y =>
        rcases ih hmem with ⟨m2, h2⟩
        exact ⟨m2, by simp [mapE, ha, h2]⟩

/-- Floor division by 60 is the rational floor of division by 60. -/
theorem fdiv_sixty_floor (a : ℤ) : a.fdiv 60 = ⌊(a : ℚ) / 60⌋ := by
  rw [Int.fdiv_eq_ediv a (by norm_num)]
  have h := Rat.floor_intCast_div_natCast a 60
  push_cast at h
  omega

/-- Inversion of a successful rail cycle body: every element parsed and the
output is the sorted parse results. -/
theorem pollOncePure_ok {r : RailResponse} {items : List RailDep}
    (h : pollOncePure r = Except.ok items) :
    ∃ parsed, mapE parse_eta r.etas = Except.ok parsed ∧
      items = List.insertionSort railLe parsed := by
  have hitems : railItems r = Except.ok items := by
    unfold pollOncePure at h
    split at h
    · split at h
      · cases h
      · exact h
    · exact h
  unfold railItems at hitems
  cases hm : mapE parse_eta r.etas with
  | error e =>
    rw [hm] at hitems
    cases hitems
  | ok parsed =>
    rw [hm] at hitems
    cases hitems
    exact ⟨parsed, rfl, rfl⟩

/-- Inversion of a successful bus cycle body: an envelope was present, its
error value was absent or falsy, and the output is the sorted filtered
parse results. -/
theorem pollBusPure_ok {r : BusResponse} {items : List BusDep}
    (h : pollBusPure r = Except.ok items) :
    ∃ env, r.envelope = some env ∧
      items = List.insertionSort busLe (busItems env) := by
  unfold pollBusPure at h
  split at h
  · cases h
  · rename_i env he
    refine ⟨env, he, ?_⟩
    split at h
    · split at h
      · cases h
      · cases h
        rfl
    · cases h
      rfl

/-! ## Claim theorems -/

/-- C1: for every feed, when a refresh cycle fails with any error, the
previously cached departures and `updated_at` are left unchanged and the
only field that changes is `error`, set to the string form of the failure. -/
theorem c1_failed_cycle_preserves_cache
    (fr : Except String RailResponse) (fb : Except String BusResponse)
    (now : String) (cr : FeedCache RailDep) (cb : FeedCache BusDep)
    (er eb : String)
    (hr : fr.bind pollOncePure = Except.error er)
    (hb : fb.bind pollBusPure = Except.error eb) :
    railCycle fr now cr = ⟨cr.updated_at, cr.data, some er⟩ ∧
    busCycle fb now cb = ⟨cb.updated_at, cb.data, some eb⟩ :=
  ⟨railCycle_err hr, busCycle_err hb⟩

/-- Witness for C1: a failed rail fetch and a bus cycle failing on a
missing envelope, both leaving the populated caches' data untouched. -/
theorem c1_witness :
    (Except.error "boom" : Except String RailResponse).bind pollOncePure =
      Except.error "boom" ∧
    (Except.ok busRespNoEnv).bind pollBusPure =
      Except.error "Unexpected Bus API response" ∧
    railCycle (Except.error "boom") "2024-01-01T08:00:00-06:00" cacheR1 =
      ⟨cacheR1.updated_at, cacheR1.data, some "boom"⟩ ∧
    busCycle (Except.ok busRespNoEnv) "2024-01-01T08:00:00-06:00" cacheB1 =
      ⟨cacheB1.updated_at, cacheB1.data, some "Unexpected Bus API response"⟩ := by
  have h := c1_failed_cycle_preserves_cache (Except.error "boom")
    (Except.ok busRespNoEnv) "2024-01-01T08:00:00-06:00" cacheR1 cacheB1
    "boom" "Unexpected Bus API response" rfl rfl
  exact ⟨rfl, rfl, h.1, h.2⟩

/-- C2: each snapshot read signals the distinguished not-ready condition
exactly when `updated_at` is absent and the cache holds an error (a
non-empty message, Python truthiness); in every other state it returns the
in-memory snapshot unchanged, stale data and error included. -/
theorem c2_snapshot_not_ready_iff :
    (∀ cr : FeedCache RailDep,
      (∃ m, get_departures cr = Except.error m) ↔
        (cr.updated_at = none ∧ errTruthy cr.error = true)) ∧
    (∀ cr : FeedCache RailDep,
      ¬(cr.updated_at = none ∧ errTruthy cr.error = true) →
        get_departures cr = Except.ok cr) ∧
    (∀ cb : FeedCache BusDep,
      (∃ m, get_bus_departures cb = Except.error m) ↔
        (cb.updated_at = none ∧ errTruthy cb.error = true)) ∧
    (∀ cb : FeedCache BusDep,
      ¬(cb.updated_at = none ∧ errTruthy cb.error = true) →
        get_bus_departures cb = Except.ok cb) :=
  ⟨fun cr => snapshotRead_error_iff cr, fun cr h => snapshotRead_pass cr h,
   fun cb => snapshotRead_error_iff cb, fun cb h => snapshotRead_pass cb h⟩

/-- Witness for C2: a never-succeeded cache with an error raises, a stale
cache with data and error is returned as-is, for both endpoints. -/
theorem c2_witness :
    (∃ m, get_departures cacheNotReady = Except.error m) ∧
    ¬(cacheStale.updated_at = none ∧ errTruthy cacheStale.error = true) ∧
    get_departures cacheStale = Except.ok cacheStale ∧
    (∃ m, get_bus_departures cacheBusNotReady = Except.error m) ∧
    ¬(cacheBusFresh.updated_at = none ∧ errTruthy cacheBusFresh.error = true) ∧
    get_bus_departures cacheBusFresh = Except.ok cacheBusFresh := by
  have hs : ¬(cacheStale.updated_at = none ∧ errTruthy cacheStale.error = true) :=
    fun h => Option.noConfusion h.1
  have hf : ¬(cacheBusFresh.updated_at = none ∧ errTruthy cacheBusFresh.error = true) :=
    fun h => Option.noConfusion h.1
  exact ⟨(c2_snapshot_not_ready_iff.1 cacheNotReady).mpr ⟨rfl, rfl⟩,
    hs, c2_snapshot_not_ready_iff.2.1 cacheStale hs,
    (c2_snapshot_not_ready_iff.2.2.1 cacheBusNotReady).mpr ⟨rfl, rfl⟩,
    hf, c2_snapshot_not_ready_iff.2.2.2 cacheBusFresh hf⟩

/-- C3: for every rail element whose two timestamps parse, the normalized
minutes equal `max(floor((arrives_at - predicted_at)/60s), 0)` and are
never negative. -/
theorem c3_rail_minutes_formula (e : EtaElem) (dp da : DateTime) (d : RailDep)
    (hp : strptimeYmdHms (txt e.prdt) = some dp)
    (ha : strptimeYmdHms (txt e.arrT) = some da)
    (hd : parse_eta e = Except.ok d) :
    d.minutes = max ⌊((instant da - instant dp : ℤ) : ℚ) / 60⌋ 0 ∧
    0 ≤ d.minutes := by
  simp only [parse_eta, strptimeE, hp, ha] at hd
  injection hd with hd
  subst hd
  refine ⟨?_, ?_⟩
  · show max ((instant da - instant dp).fdiv 60) 0 = _
    rw [fdiv_sixty_floor]
  · exact le_max_right _ _

/-- Witness for C3: an element whose arrival precedes its prediction still
yields minutes 0, matching the clamped floor formula. -/
theorem c3_witness :
    strptimeYmdHms (txt eta3.prdt) = some dp3 ∧
    strptimeYmdHms (txt eta3.arrT) = some da3 ∧
    parse_eta eta3 = Except.ok railDep3 ∧
    railDep3.minutes = max ⌊((instant da3 - instant dp3 : ℤ) : ℚ) / 60⌋ 0 ∧
    0 ≤ railDep3.minutes ∧ railDep3.minutes = 0 := by
  have h := c3_rail_minutes_formula eta3 dp3 da3 railDep3 rfl rfl rfl
  exact ⟨rfl, rfl, rfl, h.1, h.2, rfl⟩

/-- C4: the bus countdown normalization maps a (stripped) digit string to
its integer value, a case-insensitive DUE to 0, and anything else to
absent, never failing the cycle; checked against the claim-side function
and on the spec's five sample values. -/
theorem c4_bus_minutes :
    (∀ p : BusPrd, (parse_bus_prd p).minutes = busMinutesSpec p.prdctdn) ∧
    (parse_bus_prd { prdctdn := some "0" }).minutes = some 0 ∧
    (parse_bus_prd { prdctdn := some "7" }).minutes = some 7 ∧
    (parse_bus_prd { prdctdn := some "DUE" }).minutes = some 0 ∧
    (parse_bus_prd { prdctdn := some "due" }).minutes = some 0 ∧
    (parse_bus_prd { prdctdn := some "ERR" }).minutes = none := by
  refine ⟨?_, rfl, rfl, rfl, rfl, rfl⟩
  intro p
  simp only [parse_bus_prd, busMinutesSpec, beq_iff_eq]

/-- C5: every successfully published departure sequence (either feed) is
sorted ascending by the `(arrives_at, route)` pair, and the spec's
tie-break scenario, routes B and A at the same arrival instant, publishes
A before B. -/
theorem c5_published_sorted :
    (∀ (r : RailResponse) (items : List RailDep),
      pollOncePure r = Except.ok items → List.Sorted railLe items) ∧
    (∀ (b : BusResponse) (items : List BusDep),
      pollBusPure b = Except.ok items → List.Sorted busLe items) ∧
    pollBusPure busResp5 = Except.ok [parse_bus_prd pA5, parse_bus_prd pB5] ∧
    (parse_bus_prd pA5).arrives_at = (parse_bus_prd pB5).arrives_at ∧
    (parse_bus_prd pA5).route = "A" ∧ (parse_bus_prd pB5).route = "B" := by
  refine ⟨?_, ?_, rfl, rfl, rfl, rfl⟩
  · intro r items h
    rcases pollOncePure_ok h with ⟨parsed, _, rfl⟩
    exact List.sorted_insertionSort railLe parsed
  · intro b items h
    rcases pollBusPure_ok h with ⟨env, _, rfl⟩
    exact List.sorted_insertionSort busLe (busItems env)

/-- Witness for C5: concrete successful cycles of both feeds with their
published lists, which are sorted by the theorem. -/
theorem c5_witness :
    pollOncePure railResp5 = Except.ok [railDep5] ∧
    List.Sorted railLe [railDep5] ∧
    pollBusPure busResp5 = Except.ok [parse_bus_prd pA5, parse_bus_prd pB5] ∧
    List.Sorted busLe [parse_bus_prd pA5, parse_bus_prd pB5] :=
  ⟨rfl, c5_published_sorted.1 railResp5 [railDep5] rfl, rfl,
    c5_published_sorted.2.1 busResp5 [parse_bus_prd pA5, parse_bus_prd pB5] rfl⟩

/-- C6: a present, truthy rail error code different from "0" fails the
cycle with the message built from code and name, publishes nothing and
leaves the prior cached data untouched. -/
theorem c6_rail_error_code (r : RailResponse) (code : String) (now : String)
    (c : FeedCache RailDep)
    (h1 : r.errCd = some code) (h2 : code ≠ "") (h3 : code ≠ "0") :
    pollOncePure r = Except.error (railErrMsg code r.errNm) ∧
    railCycle (Except.ok r) now c =
      ⟨c.updated_at, c.data, some (railErrMsg code r.errNm)⟩ := by
  have hcc : (code != "" && code != "0") = true := by
    simp only [Bool.and_eq_true, bne_iff_ne, ne_eq]
    exact ⟨h2, h3⟩
  have hp : pollOncePure r = Except.error (railErrMsg code r.errNm) := by
    simp [pollOncePure, h1, hcc]
  exact ⟨hp, railCycle_err hp⟩

/-- Witness for C6: code "1", name "Bad Request" yields exactly
"CTA error 1: Bad Request" and the prior cache data survives. -/
theorem c6_witness :
    railResp6.errCd = some "1" ∧ ("1" : String) ≠ "" ∧ ("1" : String) ≠ "0" ∧
    pollOncePure railResp6 = Except.error "CTA error 1: Bad Request" ∧
    railCycle (Except.ok railResp6) "2024-01-01T08:00:00-06:00" cacheR1 =
      ⟨cacheR1.updated_at, cacheR1.data, some "CTA error 1: Bad Request"⟩ := by
  have h := c6_rail_error_code railResp6 "1" "2024-01-01T08:00:00-06:00" cacheR1
    rfl (by decide) (by decide)
  exact ⟨rfl, by decide, by decide, h.1, h.2⟩

/-- Counterexample to C7 as stated: an error list whose single entry has an
empty message joins to "", but the recorded error is the default
"Bus API error", not that concatenation. -/
theorem c7_counterexample :
    pollBusPure busRespCex = Except.error "Bus API error" ∧
    extractMsgs errListEmptyMsg = some [""] ∧
    String.intercalate "; " [""] = "" ∧
    ("Bus API error" : String) ≠ "" :=
  ⟨rfl, rfl, rfl, by decide⟩

/-- C7 (amended): a missing envelope fails the cycle with the protocol
error; a present truthy error value (for a list: non-empty) fails it with
the semantic error string, which is the "; "-join of the entries' msg
fields, the default "Bus API error" when that join is empty, or the
stringified raw value when the messages cannot be extracted. -/
theorem c7_bus_envelope_errors :
    (∀ r : BusResponse, r.envelope = none →
      pollBusPure r = Except.error "Unexpected Bus API response") ∧
    (∀ (env : BusEnvelope) (v : Json), env.error = some v → jsonTruthy v = true →
      pollBusPure ⟨some env⟩ = Except.error (busErrMsg v)) ∧
    (∀ (v : Json) (msgs : List String), extractMsgs v = some msgs →
      busErrMsg v = (if String.intercalate "; " msgs = "" then "Bus API error"
        else String.intercalate "; " msgs)) ∧
    (∀ v : Json, extractMsgs v = none → busErrMsg v = pyStr v) := by
  refine ⟨?_, ?_, ?_, ?_⟩
  · intro r h
    simp [pollBusPure, h]
  · intro env v hv ht
    simp [pollBusPure, hv, ht]
  · intro v msgs hm
    simp [busErrMsg, hm]
  · intro v hm
    simp [busErrMsg, hm]

/-- Witness for C7 (amended): the missing-envelope failure, a two-entry
error list joined with "; ", and the string fallback on an unextractable
error value. -/
theorem c7_witness :
    busRespNoEnv.envelope = none ∧
    pollBusPure busRespNoEnv = Except.error "Unexpected Bus API response" ∧
    (⟨some errListTwo, none⟩ : BusEnvelope).error = some errListTwo ∧
    jsonTruthy errListTwo = true ∧
    pollBusPure busRespErr =
      Except.error "No data found for parameter; Invalid stop" ∧
    extractMsgs errListTwo = some ["No data found for parameter", "Invalid stop"] ∧
    busErrMsg errListTwo = "No data found for parameter; Invalid stop" ∧
    extractMsgs (Json.str "server melted") = none ∧
    busErrMsg (Json.str "server melted") = pyStr (Json.str "server melted") := by
  refine ⟨rfl, c7_bus_envelope_errors.1 busRespNoEnv rfl, rfl, rfl, ?_, rfl, ?_, rfl, ?_⟩
  · exact c7_bus_envelope_errors.2.1 ⟨some errListTwo, none⟩ errListTwo rfl rfl
  · exact c7_bus_envelope_errors.2.2.1 errListTwo
      ["No data found for parameter", "Invalid stop"] rfl
  · exact c7_bus_envelope_errors.2.2.2 (Json.str "server melted") rfl

/-- C8: the bus normalizer keeps exactly the predictions whose direction
lower-cases to the configured "southbound", silently and without error:
membership characterization plus the spec's Southbound/Northbound
scenario. -/
theorem c8_direction_filter :
    (∀ prds : List BusPrd, ∃ items,
      pollBusPure ⟨some ⟨none, some prds⟩⟩ = Except.ok items ∧
      ∀ d, d ∈ items ↔
        (d ∈ prds.map parse_bus_prd ∧ pyLower d.direction = "southbound")) ∧
    pollBusPure busResp8 = Except.ok [parse_bus_prd pS8] ∧
    (parse_bus_prd pS8).direction = "Southbound" ∧
    (parse_bus_prd pN8).direction = "Northbound" := by
  refine ⟨?_, rfl, rfl, rfl⟩
  intro prds
  refine ⟨_, rfl, ?_⟩
  intro d
  simp [List.mem_insertionSort, busItems, List.mem_filter]

/-- C9: every successful cycle of either feed wholly replaces the cache:
data becomes the newly normalized sequence, `updated_at` the fresh clock
value, and `error` is cleared; in particular a bus envelope with `prd: []`
succeeds and publishes the empty sequence. -/
theorem c9_success_replaces_cache :
    (∀ (fr : Except String RailResponse) (now : String) (cr : FeedCache RailDep)
        (items : List RailDep), fr.bind pollOncePure = Except.ok items →
      railCycle fr now cr = ⟨some now, items, none⟩) ∧
    (∀ (fb : Except String BusResponse) (now : String) (cb : FeedCache BusDep)
        (items : List BusDep), fb.bind pollBusPure = Except.ok items →
      busCycle fb now cb = ⟨some now, items, none⟩) ∧
    (∀ (now : String) (cb : FeedCache BusDep),
      busCycle (Except.ok busRespEmpty) now cb = ⟨some now, [], none⟩) := by
  refine ⟨?_, ?_, ?_⟩
  · intro fr now cr items h
    exact railCycle_okk h
  · intro fb now cb items h
    exact busCycle_okk h
  · intro now cb
    exact busCycle_okk rfl

/-- Witness for C9: a concrete successful rail cycle over a stale cache and
the `prd: []` bus cycle over a populated cache. -/
theorem c9_witness :
    (Except.ok railResp5).bind pollOncePure = Except.ok [railDep5] ∧
    railCycle (Except.ok railResp5) "2024-01-01T08:06:00-06:00" cacheStale =
      ⟨some "2024-01-01T08:06:00-06:00", [railDep5], none⟩ ∧
    (Except.ok busRespEmpty).bind pollBusPure = Except.ok ([] : List BusDep) ∧
    busCycle (Except.ok busRespEmpty) "2024-01-01T08:06:00-06:00" cacheB1 =
      ⟨some "2024-01-01T08:06:00-06:00", [], none⟩ := by
  refine ⟨rfl, ?_, rfl, ?_⟩
  · exact c9_success_replaces_cache.1 (Except.ok railResp5)
      "2024-01-01T08:06:00-06:00" cacheStale [railDep5] rfl
  · exact c9_success_replaces_cache.2.1 (Except.ok busRespEmpty)
      "2024-01-01T08:06:00-06:00" cacheB1 [] rfl

/-- Counterexample to C10 as stated: "20240101 8:00:00" (16 characters,
one-digit hour) is not exactly in the "YYYYMMDD HH:MM:SS" shape, yet
CPython's strptime accepts it, the element parses, and the whole cycle
succeeds and publishes it instead of failing. -/
theorem c10_counterexample :
    ("20240101 8:00:00" : String).length = 16 ∧
    txt etaFlex.prdt = "20240101 8:00:00" ∧
    strptimeYmdHms "20240101 8:00:00" = some ⟨2024, 1, 1, 8, 0, 0⟩ ∧
    parse_eta etaFlex = Except.ok railDepFlex ∧
    pollOncePure railRespFlex = Except.ok [railDepFlex] ∧
    railCycle (Except.ok railRespFlex) "2024-01-01T08:06:00-06:00" cacheNotReady =
      ⟨some "2024-01-01T08:06:00-06:00", [railDepFlex], none⟩ :=
  ⟨rfl, rfl, rfl, rfl, rfl, rfl⟩

/-- C10 (amended): a rail element whose `prdt` or `arrT` text is missing,
empty, or rejected by strptime's flexible matching of the
"%Y%m%d %H:%M:%S" format makes the element parse raise and, since the
comprehension maps every element, fails the whole cycle, whose error is
recorded on the otherwise untouched cache; elements are never dropped
individually, and tolerance of missing text applies only to the
non-timestamp fields. -/
theorem c10_timestamp_failure_propagation :
    (∀ e : EtaElem, strptimeYmdHms (txt e.prdt) = none →
      ∃ m, parse_eta e = Except.error m) ∧
    (∀ e : EtaElem, strptimeYmdHms (txt e.arrT) = none →
      ∃ m, parse_eta e = Except.error m) ∧
    (∀ (r : RailResponse) (el : EtaElem) (m : String), el ∈ r.etas →
      parse_eta el = Except.error m → ∃ m2, pollOncePure r = Except.error m2) ∧
    (∀ (r : RailResponse) (m2 now : String) (c : FeedCache RailDep),
      pollOncePure r = Except.error m2 →
      railCycle (Except.ok r) now c = ⟨c.updated_at, c.data, some m2⟩) ∧
    (∀ (e : EtaElem) (dp da : DateTime), strptimeYmdHms (txt e.prdt) = some dp →
      strptimeYmdHms (txt e.arrT) = some da → ∃ d, parse_eta e = Except.ok d) := by
  refine ⟨?_, ?_, ?_, ?_, ?_⟩
  · intro e h
    exact ⟨_, by simp only [parse_eta, strptimeE, h]; rfl⟩
  · intro e h
    cases hp : strptimeYmdHms (txt e.prdt) with
    | none => exact ⟨_, by simp only [parse_eta, strptimeE, hp]; rfl⟩
    | some dp => exact ⟨_, by simp only [parse_eta, strptimeE, hp, h]; rfl⟩
  · intro r el m hmem hel
    rcases mapE_error_of_mem hmem hel with ⟨m1, hm1⟩
    rcases hc : r.errCd with _ | c
    · exact ⟨m1, by simp [pollOncePure, hc, railItems, hm1]⟩
    · by_cases hcc : (c != "" && c != "0") = true
      · exact ⟨railErrMsg c r.errNm, by simp [pollOncePure, hc, hcc]⟩
      · exact ⟨m1, by simp [pollOncePure, hc, hcc, railItems, hm1]⟩
  · intro r m2 now c h
    exact railCycle_err h
  · intro e dp da hp ha
    exact ⟨_, by simp only [parse_eta, strptimeE, hp, ha]; rfl⟩

/-- Witness for C10: non-digit, dashed-format and missing timestamp texts
are each rejected by the flexible strptime matching and abort the element;
a response containing one such element fails as a whole and only the cache
error moves; an element with both timestamps valid but every other field
missing parses fine. -/
theorem c10_witness :
    strptimeYmdHms (txt etaBadPrdt.prdt) = none ∧
    (∃ m, parse_eta etaBadPrdt = Except.error m) ∧
    strptimeYmdHms (txt etaBadArrT.arrT) = none ∧
    (∃ m, parse_eta etaBadArrT = Except.error m) ∧
    strptimeYmdHms (txt etaMissing.prdt) = none ∧
    (∃ m, parse_eta etaMissing = Except.error m) ∧
    etaBadPrdt ∈ railResp10.etas ∧
    parse_eta etaBadPrdt =
      Except.error "time data not a time does not match format %Y%m%d %H:%M:%S" ∧
    (∃ m2, pollOncePure railResp10 = Except.error m2) ∧
    pollOncePure railResp10 =
      Except.error "time data not a time does not match format %Y%m%d %H:%M:%S" ∧
    railCycle (Except.ok railResp10) "2024-01-01T09:05:00-05:00" cacheR1 =
      ⟨cacheR1.updated_at, cacheR1.data,
        some "time data not a time does not match format %Y%m%d %H:%M:%S"⟩ ∧
    strptimeYmdHms (txt eta10.prdt) = some ⟨2024, 1, 1, 9, 0, 0⟩ ∧
    strptimeYmdHms (txt eta10.arrT) = some ⟨2024, 1, 1, 9, 2, 0⟩ ∧
    (∃ d, parse_eta eta10 = Except.ok d) := by
  refine ⟨rfl, c10_timestamp_failure_propagation.1 etaBadPrdt rfl, rfl,
    c10_timestamp_failure_propagation.2.1 etaBadArrT rfl, rfl,
    c10_timestamp_failure_propagation.1 etaMissing rfl, ?_, rfl,
    c10_timestamp_failure_propagation.2.2.1 railResp10 etaBadPrdt
      "time data not a time does not match format %Y%m%d %H:%M:%S" ?_ rfl, rfl,
    c10_timestamp_failure_propagation.2.2.2.1 railResp10
      "time data not a time does not match format %Y%m%d %H:%M:%S"
      "2024-01-01T09:05:00-05:00" cacheR1 rfl, rfl, rfl,
    c10_timestamp_failure_propagation.2.2.2.2 eta10 ⟨2024, 1, 1, 9, 0, 0⟩
      ⟨2024, 1, 1, 9, 2, 0⟩ rfl rfl⟩
  · show etaBadPrdt ∈ railResp10.etas
    exact List.mem_cons_of_mem _ (List.mem_singleton.mpr rfl)
  · exact List.mem_cons_of_mem _ (List.mem_singleton.mpr rfl)
